import Mathlib

/-!
Verification development for the CloudRepository client
(src/CloudRepository.js of craterdog-bali/js-bali-nebula-api).

The JavaScript module exposes a repository facade over HTTP.  The shallow
embedding below translates the source faithfully:

* JavaScript strings are Lean `String`; `undefined` versus string versus
  boolean results are captured by `JsValue`.
* The external bali-component-framework collaborators (tag/version token
  generation, canonical formatting, exception records) are modelled with
  explicit Lean data; tag and version generation draw from a threaded
  counter state, which models the contract that each generated token is
  fresh and unique.
* The axios HTTP call is modelled by a `Transport` oracle describing what
  the network did: a response (with status, status text and optional body),
  a sent-but-unanswered request, or a failure to send at all.  The
  `validateStatus` option of the source is embedded in `dispatch`.
* Thrown exceptions become `Except.error` carrying an `Err` value that
  mirrors the structured exception records built in the source, including
  which context fields each record carries and whether a cause was chained.
-/

namespace CloudRepository

/-- A bali component parameter value: either a textual component or a
generated token (tag or version).  Tokens are identified by the counter
value that produced them. -/
inductive Value where
  | str (s : String)
  | tok (n : Nat)
deriving DecidableEq

/-- A bali document: its content together with its parameter list. -/
structure Document where
  content : String
  params : List (String × Value)
deriving DecidableEq

/-- Mirrors parameters.setParameter: replace the value under a key, or
append the binding when the key is absent. -/
def setParam (ps : List (String × Value)) (key : String) (v : Value) :
    List (String × Value) :=
  match ps with
  | [] => [(key, v)]
  | (k, w) :: rest =>
      if k = key then (key, v) :: rest else (k, w) :: setParam rest key v

/-- Mirrors parameters.getParameter: look up the value under a key. -/
def getParam (ps : List (String × Value)) (key : String) : Option Value :=
  match ps with
  | [] => none
  | (k, w) :: rest => if k = key then some w else getParam rest key

/-- A structured exception record, mirroring bali.exception.  The source
builds every record with a module, a function name, an exception symbol
and further context attributes; a cause is chained only when the call site
passes one.  `lowLevel` stands for errors raised by external collaborators
(the notary, axios internals). -/
inductive Err where
  | lowLevel (msg : String)
  | exc (fn : String) (kind : String) (ctx : List (String × String))
  | excWith (fn : String) (kind : String) (ctx : List (String × String))
      (cause : Err)
deriving DecidableEq

/-- The context attribute list of an exception record. -/
def Err.ctxOf : Err → List (String × String)
  | .lowLevel _ => []
  | .exc _ _ ctx => ctx
  | .excWith _ _ ctx _ => ctx

/-- The exception symbol of a record, when it is a structured record. -/
def Err.kindOf : Err → Option String
  | .lowLevel _ => none
  | .exc _ k _ => some k
  | .excWith _ k _ _ => some k

/-- The function attribute of a record, when it is a structured record. -/
def Err.fnOf : Err → Option String
  | .lowLevel _ => none
  | .exc f _ _ => some f
  | .excWith f _ _ _ => some f

/-- The chained cause of a record, when one was attached. -/
def Err.causeOf : Err → Option Err
  | .excWith _ _ _ c => some c
  | _ => none

/-- Mirrors exception.toString: a canonical rendering used only by the
debug logging path. -/
def Err.render : Err → String
  | .lowLevel m => m
  | .exc f k ctx =>
      "[" ++ f ++ " " ++ k ++ " " ++
        String.intercalate "," (ctx.map (fun p => p.1 ++ ":" ++ p.2)) ++ "]"
  | .excWith f k ctx c =>
      "[" ++ f ++ " " ++ k ++ " " ++
        String.intercalate "," (ctx.map (fun p => p.1 ++ ":" ++ p.2)) ++
        " caused by " ++ Err.render c ++ "]"

/-- Whether an exception record carries a context attribute with the given
name. -/
def hasField (e : Err) (key : String) : Bool :=
  (Err.ctxOf e).any (fun p => p.1 == key)

/-- Whether an exception record carries a context attribute with the given
name and value. -/
def hasFieldVal (e : Err) (key v : String) : Bool :=
  (Err.ctxOf e).any (fun p => p.1 == key && p.2 == v)

/-- A JavaScript value as returned by the repository operations: a
boolean, a string, or undefined. -/
inductive JsValue where
  | boolean (b : Bool)
  | str (s : String)
  | undefined
deriving DecidableEq

/-- The exception symbol carried by a failing result. -/
def resKind : Except Err JsValue → Option String
  | .error e => Err.kindOf e
  | .ok _ => none

/-- The chained cause of a failing result: `some c` when the result is an
exception whose cause field is `c` (itself an `Option Err`), `none` when
the result succeeded. -/
def resCause : Except Err JsValue → Option (Option Err)
  | .error e => some (Err.causeOf e)
  | .ok _ => none

/-- Whether a failing result carries the given context attribute and
value. -/
def resHasFieldVal (r : Except Err JsValue) (key v : String) : Bool :=
  match r with
  | .error e => hasFieldVal e key v
  | .ok _ => false

/-- The HTTP methods used by the repository. -/
inductive Method where
  | HEAD
  | GET
  | POST
  | PUT
  | DELETE
deriving DecidableEq

/-- The name of an HTTP method, as it appears in exception records. -/
def methodName : Method → String
  | .HEAD => "HEAD"
  | .GET => "GET"
  | .POST => "POST"
  | .PUT => "PUT"
  | .DELETE => "DELETE"

/-- What the network did for one axios call: the server responded (with a
status, a status text, and an optional body), the request was sent but
received no response, or the request could not be built or sent at all. -/
inductive Transport where
  | response (status : Nat) (statusText : String) (data : Option String)
  | noResponse (status : Nat) (statusText : String)
  | sendFailure
deriving DecidableEq

/-- The axios request options assembled by sendRequest: target URL,
method, header list and optional body. -/
structure HttpRequest where
  url : String
  method : Method
  headers : List (String × String)
  data : Option String
deriving DecidableEq

/-- A notarized credential document: the duplicated and re-parameterized
citation together with the notary signature. -/
structure Credentials where
  document : Document
  signature : String
deriving DecidableEq

/-- The digital notary collaborator: its account, its current identity
citation, and its signing operation.  Both collaborator operations may
fail; such failures surface as low-level errors. -/
structure Notary where
  account : String
  getCitation : Except Err Document
  sign : Document → Except Err String

/-- Modelled from the spec: bali.tag() generates a freshly generated
unique tag.  The bali-component-framework is an external collaborator not
present under src/, so token generation is modelled by drawing the next
value from a threaded counter state, which realizes the uniqueness
contract. -/
def freshTag (g : Nat) : Nat × Nat := (g, g + 1)

/-- Modelled from the spec: bali.version() generates a freshly generated
version token; modelled exactly like `freshTag` from the same threaded
counter state. -/
def freshVersion (g : Nat) : Nat × Nat := (g, g + 1)

/-- Mirrors generateCredentials: obtain the citation, duplicate it,
overwrite its tag, version, permissions and previous parameters, and have
the notary notarize the resulting document.  The counter state `g` feeds
the token generators. -/
def generateCredentials (notary : Notary) (g : Nat) :
    Except Err Credentials × Nat :=
  match notary.getCitation with
  | .error e => (.error e, g)
  | .ok citation =>
      let (t, g1) := freshTag g
      let (v, g2) := freshVersion g1
      let doc : Document :=
        { citation with
          params :=
            setParam
              (setParam
                (setParam
                  (setParam citation.params "$tag" (.tok t))
                  "$version" (.tok v))
                "$permissions" (.str "$Private"))
              "$previous" (.str "none") }
      match notary.sign doc with
      | .error e => (.error e, g2)
      | .ok sig => (.ok { document := doc, signature := sig }, g2)

/-- Modelled from the spec: bali.format(credentials, -1) produces the
canonical string form of the signed credential; the formatter itself lives
in the external component framework, so a concrete canonical rendering is
used. -/
def formatCredentials (c : Credentials) : String :=
  c.document.content ++ "(" ++
    String.intercalate ","
      (c.document.params.map (fun p =>
        p.1 ++ ":" ++
          (match p.2 with
           | .str s => s
           | .tok n => "#" ++ toString n))) ++
    ")~" ++ c.signature

/-- Mirrors the pattern value || bali.NONE used for exception context
attributes: a falsy (empty) string is replaced by the none marker. -/
def ctxVal (s : String) : String := if s = "" then "none" else s

/-- The text of the invalid method and type exception record. -/
def comboText : String :=
  "An invalid method and document type combination was specified."

/-- Mirrors the parameter-analysis switch at the top of sendRequest: for
each document type the allowed methods pass, any other method yields an
invalidParameter record, and an unknown type yields an invalidParameter
record that carries only the offending type. -/
def validate (functionName cloudURL : String) (method : Method)
    (tp : String) : Option Err :=
  if tp = "certificate" then
    match method with
    | .HEAD | .POST | .GET => none
    | _ =>
        some (Err.exc functionName "$invalidParameter"
          [("$url", ctxVal cloudURL), ("$method", methodName method),
           ("$type", tp), ("$text", comboText)])
  else if tp = "draft" then
    match method with
    | .HEAD | .PUT | .GET | .DELETE => none
    | _ =>
        some (Err.exc functionName "$invalidParameter"
          [("$method", methodName method), ("$type", tp),
           ("$text", comboText)])
  else if tp = "document" then
    match method with
    | .HEAD | .POST | .GET => none
    | _ =>
        some (Err.exc functionName "$invalidParameter"
          [("$method", methodName method), ("$type", tp),
           ("$text", comboText)])
  else if tp = "type" then
    match method with
    | .HEAD | .POST | .GET => none
    | _ =>
        some (Err.exc functionName "$invalidParameter"
          [("$method", methodName method), ("$type", tp),
           ("$text", comboText)])
  else if tp = "queue" then
    match method with
    | .PUT | .GET => none
    | _ =>
        some (Err.exc functionName "$invalidParameter"
          [("$method", methodName method), ("$type", tp),
           ("$text", comboText)])
  else
    some (Err.exc functionName "$invalidParameter"
      [("$parameter", tp),
       ("$text", "An invalid document type was specified.")])

/-- Mirrors the request option assembly of sendRequest: the full URL is
the cloud URL followed by the type, a slash and the identifier; the quoted
canonically formatted credentials are the Nebula-Credentials header; when
the payload string is present and truthy it becomes the body together with
the Content-Type and Content-Length headers. -/
def buildRequest (credentials : Credentials) (cloudURL : String)
    (method : Method) (tp identifier : String) (document : Option String) :
    HttpRequest :=
  let fullURL := cloudURL ++ tp ++ "/" ++ identifier
  let data : Option String :=
    match document with
    | some d => if d = "" then none else some d
    | none => none
  { url := fullURL
    method := method
    headers :=
      [("Nebula-Credentials", "\"" ++ formatCredentials credentials ++ "\"")]
        ++ (match data with
            | some d =>
                [("Content-Type", "application/bali"),
                 ("Content-Length", toString d.length)]
            | none => [])
    data := data }

/-- Mirrors response.data || undefined: a present, nonempty body is the
result, anything else is undefined. -/
def interpretBody : Option String → JsValue
  | some s => if s = "" then .undefined else .str s
  | none => .undefined

/-- Mirrors the try block around the axios call: a response whose status
passes validateStatus (status below 400, or 404) resolves and is
interpreted per method; any other outcome rejects and is classified into
invalidRequest, serverDown or malformedRequest.  None of the three
classification records chains the low-level cause, because the source
builds them without a cause argument. -/
def dispatch (functionName : String) (req : HttpRequest) (method : Method)
    (t : Transport) : Except Err JsValue :=
  match t with
  | .response status statusText data =>
      if status < 400 ∨ status = 404 then
        match method with
        | .HEAD | .DELETE => .ok (.boolean (status != 404))
        | _ => .ok (interpretBody data)
      else
        .error (Err.exc functionName "$invalidRequest"
          [("$url", req.url), ("$method", methodName method),
           ("$status", toString status), ("$details", statusText),
           ("$text", "The request was rejected by the Bali Nebula.")])
  | .noResponse status statusText =>
      .error (Err.exc functionName "$serverDown"
        [("$url", req.url), ("$method", methodName method),
         ("$status", toString status), ("$details", statusText),
         ("$text", "The request received no response.")])
  | .sendFailure =>
      .error (Err.exc functionName "$malformedRequest"
        [("$url", req.url), ("$method", methodName method),
         ("$text", "The request was not formed correctly.")])

/-- Mirrors sendRequest: analyze the parameters, and either fail without
any network activity, or build the request options, perform the call and
interpret or classify what came back.  The second component records the
axios invocations performed. -/
def sendRequest (credentials : Credentials) (functionName cloudURL : String)
    (method : Method) (tp identifier : String) (document : Option String)
    (t : Transport) : Except Err JsValue × List HttpRequest :=
  match validate functionName cloudURL method tp with
  | some e => (.error e, [])
  | none =>
      let req := buildRequest credentials cloudURL method tp identifier document
      (dispatch functionName req method t, [req])

/-- The fixed data of one facade operation: its function symbol, the
method and document type it passes to sendRequest, the name of its
identifier context attribute, the name of its payload context attribute
when it takes a payload, the text of its unexpected record, and whether
the source returns the awaited sendRequest result (the create, save,
delete and enqueue operations discard it and return undefined). -/
structure OpSpec where
  functionName : String
  method : Method
  kind : String
  idField : String
  payloadField : Option String
  text : String
  returnsResult : Bool
deriving DecidableEq

/-- Mirrors the catch block shared by every facade operation: an
unexpected record carrying the account, the URL, the identifier, the
payload when the operation takes one, and the text, with the caught error
chained as the cause. -/
def wrapUnexpected (spec : OpSpec) (account url identifier : String)
    (payload : Option String) (cause : Err) : Err :=
  Err.excWith spec.functionName "$unexpected"
    ([("$account", ctxVal account), ("$url", ctxVal url),
      (spec.idField, ctxVal identifier)]
      ++ (match spec.payloadField with
          | some f => [(f, ctxVal (payload.getD ""))]
          | none => [])
      ++ [("$text", spec.text)])
    cause

/-- The repository facade state captured at construction: the notary, the
cloud URL and the debug flag. -/
structure RepoConfig where
  notary : Notary
  cloudURL : String
  debug : Bool

/-- Everything observable about one facade call: its returned or thrown
result, the axios invocations it performed, the console error output it
emitted, and the token-generator state it left behind. -/
structure OpResult where
  result : Except Err JsValue
  requests : List HttpRequest
  log : List String
  gen : Nat

/-- Mirrors the shared shape of all fifteen facade operations: generate
credentials, send the request, and on any failure wrap the caught error
into an unexpected record, logging it first when the debug flag is set. -/
def runOperation (spec : OpSpec) (cfg : RepoConfig) (identifier : String)
    (payload : Option String) (t : Transport) (g : Nat) : OpResult :=
  match generateCredentials cfg.notary g with
  | (.error cause, g1) =>
      let e := wrapUnexpected spec cfg.notary.account cfg.cloudURL identifier
        payload cause
      { result := .error e
        requests := []
        log := if cfg.debug then [e.render] else []
        gen := g1 }
  | (.ok creds, g1) =>
      match sendRequest creds spec.functionName cfg.cloudURL spec.method
        spec.kind identifier payload t with
      | (.ok outcome, reqs) =>
          { result := .ok (if spec.returnsResult then outcome else .undefined)
            requests := reqs
            log := []
            gen := g1 }
      | (.error cause, reqs) =>
          let e := wrapUnexpected spec cfg.notary.account cfg.cloudURL
            identifier payload cause
          { result := .error e
            requests := reqs
            log := if cfg.debug then [e.render] else []
            gen := g1 }

/-- The certificateExists operation data, from the source. -/
def certificateExistsSpec : OpSpec :=
  { functionName := "$certificateExists", method := .HEAD
    kind := "certificate", idField := "$certificateId"
    payloadField := none
    text := "An unexpected error occurred while attempting check to see if the certificate exists."
    returnsResult := true }

/-- The fetchCertificate operation data, from the source. -/
def fetchCertificateSpec : OpSpec :=
  { functionName := "$fetchCertificate", method := .GET
    kind := "certificate", idField := "$certificateId"
    payloadField := none
    text := "An unexpected error occurred while attempting to fetch the certificate."
    returnsResult := true }

/-- The createCertificate operation data, from the source. -/
def createCertificateSpec : OpSpec :=
  { functionName := "$createCertificate", method := .POST
    kind := "certificate", idField := "$certificateId"
    payloadField := some "$certificate"
    text := "An unexpected error occurred while attempting to create the certificate."
    returnsResult := false }

/-- The draftExists operation data, from the source. -/
def draftExistsSpec : OpSpec :=
  { functionName := "$draftExists", method := .HEAD
    kind := "draft", idField := "$draftId"
    payloadField := none
    text := "An unexpected error occurred while attempting check to see if the draft exists."
    returnsResult := true }

/-- The fetchDraft operation data, from the source. -/
def fetchDraftSpec : OpSpec :=
  { functionName := "$fetchDraft", method := .GET
    kind := "draft", idField := "$draftId"
    payloadField := none
    text := "An unexpected error occurred while attempting to fetch the draft."
    returnsResult := true }

/-- The saveDraft operation data, from the source. -/
def saveDraftSpec : OpSpec :=
  { functionName := "$saveDraft", method := .PUT
    kind := "draft", idField := "$draftId"
    payloadField := some "$draft"
    text := "An unexpected error occurred while attempting to create the draft."
    returnsResult := false }

/-- The deleteDraft operation data, from the source. -/
def deleteDraftSpec : OpSpec :=
  { functionName := "$deleteDraft", method := .DELETE
    kind := "draft", idField := "$draftId"
    payloadField := none
    text := "An unexpected error occurred while attempting to delete the draft."
    returnsResult := false }

/-- The documentExists operation data, from the source. -/
def documentExistsSpec : OpSpec :=
  { functionName := "$documentExists", method := .HEAD
    kind := "document", idField := "$documentId"
    payloadField := none
    text := "An unexpected error occurred while attempting check to see if the document exists."
    returnsResult := true }

/-- The fetchDocument operation data, from the source. -/
def fetchDocumentSpec : OpSpec :=
  { functionName := "$fetchDocument", method := .GET
    kind := "document", idField := "$documentId"
    payloadField := none
    text := "An unexpected error occurred while attempting to fetch the document."
    returnsResult := true }

/-- The createDocument operation data, from the source. -/
def createDocumentSpec : OpSpec :=
  { functionName := "$createDocument", method := .POST
    kind := "document", idField := "$documentId"
    payloadField := some "$document"
    text := "An unexpected error occurred while attempting to create the document."
    returnsResult := false }

/-- The typeExists operation data, from the source. -/
def typeExistsSpec : OpSpec :=
  { functionName := "$typeExists", method := .HEAD
    kind := "type", idField := "$typeId"
    payloadField := none
    text := "An unexpected error occurred while attempting check to see if the type exists."
    returnsResult := true }

/-- The fetchType operation data, from the source. -/
def fetchTypeSpec : OpSpec :=
  { functionName := "$fetchType", method := .GET
    kind := "type", idField := "$typeId"
    payloadField := none
    text := "An unexpected error occurred while attempting to fetch the type."
    returnsResult := true }

/-- The createType operation data, from the source. -/
def createTypeSpec : OpSpec :=
  { functionName := "$createType", method := .POST
    kind := "type", idField := "$typeId"
    payloadField := some "$type"
    text := "An unexpected error occurred while attempting to create the type."
    returnsResult := false }

/-- The queueMessage operation data, from the source. -/
def queueMessageSpec : OpSpec :=
  { functionName := "$queueMessage", method := .PUT
    kind := "queue", idField := "$queueId"
    payloadField := some "$message"
    text := "An unexpected error occurred while attempting to queue the message."
    returnsResult := false }

/-- The dequeueMessage operation data, from the source. -/
def dequeueMessageSpec : OpSpec :=
  { functionName := "$dequeueMessage", method := .GET
    kind := "queue", idField := "$queueId"
    payloadField := none
    text := "An unexpected error occurred while attempting to dequeue the message."
    returnsResult := true }

/-- The fifteen public facade operations, in source order. -/
def allOpSpecs : List OpSpec :=
  [certificateExistsSpec, fetchCertificateSpec, createCertificateSpec,
   draftExistsSpec, fetchDraftSpec, saveDraftSpec, deleteDraftSpec,
   documentExistsSpec, fetchDocumentSpec, createDocumentSpec,
   typeExistsSpec, fetchTypeSpec, createTypeSpec,
   queueMessageSpec, dequeueMessageSpec]

/-- The certificateExists facade operation. -/
def certificateExists (cfg : RepoConfig) (certificateId : String)
    (t : Transport) (g : Nat) : OpResult :=
  runOperation certificateExistsSpec cfg certificateId none t g

/-- The fetchCertificate facade operation. -/
def fetchCertificate (cfg : RepoConfig) (certificateId : String)
    (t : Transport) (g : Nat) : OpResult :=
  runOperation fetchCertificateSpec cfg certificateId none t g

/-- The createCertificate facade operation. -/
def createCertificate (cfg : RepoConfig) (certificateId : String)
    (certificate : String) (t : Transport) (g : Nat) : OpResult :=
  runOperation createCertificateSpec cfg certificateId (some certificate) t g

/-- The draftExists facade operation. -/
def draftExists (cfg : RepoConfig) (draftId : String) (t : Transport)
    (g : Nat) : OpResult :=
  runOperation draftExistsSpec cfg draftId none t g

/-- The fetchDraft facade operation. -/
def fetchDraft (cfg : RepoConfig) (draftId : String) (t : Transport)
    (g : Nat) : OpResult :=
  runOperation fetchDraftSpec cfg draftId none t g

/-- The saveDraft facade operation. -/
def saveDraft (cfg : RepoConfig) (draftId : String) (draft : String)
    (t : Transport) (g : Nat) : OpResult :=
  runOperation saveDraftSpec cfg draftId (some draft) t g

/-- The deleteDraft facade operation. -/
def deleteDraft (cfg : RepoConfig) (draftId : String) (t : Transport)
    (g : Nat) : OpResult :=
  runOperation deleteDraftSpec cfg draftId none t g

/-- The documentExists facade operation. -/
def documentExists (cfg : RepoConfig) (documentId : String) (t : Transport)
    (g : Nat) : OpResult :=
  runOperation documentExistsSpec cfg documentId none t g

/-- The fetchDocument facade operation. -/
def fetchDocument (cfg : RepoConfig) (documentId : String) (t : Transport)
    (g : Nat) : OpResult :=
  runOperation fetchDocumentSpec cfg documentId none t g

/-- The createDocument facade operation. -/
def createDocument (cfg : RepoConfig) (documentId : String)
    (document : String) (t : Transport) (g : Nat) : OpResult :=
  runOperation createDocumentSpec cfg documentId (some document) t g

/-- The typeExists facade operation. -/
def typeExists (cfg : RepoConfig) (typeId : String) (t : Transport)
    (g : Nat) : OpResult :=
  runOperation typeExistsSpec cfg typeId none t g

/-- The fetchType facade operation. -/
def fetchType (cfg : RepoConfig) (typeId : String) (t : Transport)
    (g : Nat) : OpResult :=
  runOperation fetchTypeSpec cfg typeId none t g

/-- The createType facade operation. -/
def createType (cfg : RepoConfig) (typeId : String) (tp : String)
    (t : Transport) (g : Nat) : OpResult :=
  runOperation createTypeSpec cfg typeId (some tp) t g

/-- The queueMessage facade operation. -/
def queueMessage (cfg : RepoConfig) (queueId : String) (message : String)
    (t : Transport) (g : Nat) : OpResult :=
  runOperation queueMessageSpec cfg queueId (some message) t g

/-- The dequeueMessage facade operation. -/
def dequeueMessage (cfg : RepoConfig) (queueId : String) (t : Transport)
    (g : Nat) : OpResult :=
  runOperation dequeueMessageSpec cfg queueId none t g

/-- Definition following the words of the claims: the allowed
(resource kind, HTTP method) table: certificate HEAD GET POST, draft HEAD
GET PUT DELETE, document HEAD GET POST, type HEAD GET POST, queue PUT
GET. -/
def specAllowed (kind : String) (m : Method) : Bool :=
  if kind = "certificate" then m == .HEAD || m == .GET || m == .POST
  else if kind = "draft" then
    m == .HEAD || m == .GET || m == .PUT || m == .DELETE
  else if kind = "document" then m == .HEAD || m == .GET || m == .POST
  else if kind = "type" then m == .HEAD || m == .GET || m == .POST
  else if kind = "queue" then m == .PUT || m == .GET
  else false

/-- Whether a document type is one of the five known resource kinds of the
validation switch. -/
def isKnownKind (tp : String) : Bool :=
  tp == "certificate" || tp == "draft" || tp == "document" || tp == "type"
    || tp == "queue"

/-- A concrete citation document used by the closed test statements. -/
def testCitation : Document :=
  { content := "citation"
    params := [("$protocol", Value.str "v1"), ("$tag", Value.tok 77),
               ("$version", Value.tok 1)] }

/-- A concrete well-behaved notary used by the closed test statements. -/
def testNotary : Notary :=
  { account := "tester"
    getCitation := .ok testCitation
    sign := fun _ => .ok "signature" }

/-- A concrete repository configuration used by the closed test
statements. -/
def testCfg : RepoConfig :=
  { notary := testNotary, cloudURL := "https://repo.test/", debug := false }

/-- The credentials minted by the test notary from counter state zero. -/
def testCreds0 : Credentials :=
  match (generateCredentials testNotary 0).1 with
  | .ok c => c
  | .error _ => { document := { content := "", params := [] }, signature := "" }

/-- When validation rejects the parameters, sendRequest fails with the
validation record and performs no axios call. -/
theorem sendRequest_of_invalid (credentials : Credentials)
    (fn url : String) (method : Method) (tp id : String)
    (doc : Option String) (t : Transport) (e : Err)
    (h : validate fn url method tp = some e) :
    sendRequest credentials fn url method tp id doc t = (.error e, []) := by
  unfold sendRequest
  rw [h]

/-- When validation passes, sendRequest performs exactly one axios call
with the built request and returns the dispatched result. -/
theorem sendRequest_of_valid (credentials : Credentials)
    (fn url : String) (method : Method) (tp id : String)
    (doc : Option String) (t : Transport)
    (h : validate fn url method tp = none) :
    sendRequest credentials fn url method tp id doc t =
      (dispatch fn (buildRequest credentials url method tp id doc) method t,
       [buildRequest credentials url method tp id doc]) := by
  unfold sendRequest
  rw [h]

/-- When credential generation fails, the facade operation wraps the
failure, performs no axios call and logs exactly when debugging. -/
theorem runOperation_of_genFail (spec : OpSpec) (cfg : RepoConfig)
    (id : String) (p : Option String) (t : Transport) (g : Nat)
    (c : Err) (g1 : Nat)
    (h : generateCredentials cfg.notary g = (.error c, g1)) :
    runOperation spec cfg id p t g =
      { result := .error
          (wrapUnexpected spec cfg.notary.account cfg.cloudURL id p c)
        requests := []
        log := if cfg.debug then
          [(wrapUnexpected spec cfg.notary.account cfg.cloudURL id p c).render]
          else []
        gen := g1 } := by
  unfold runOperation
  rw [h]

/-- When credential generation succeeds and sendRequest fails, the facade
operation wraps the failure. -/
theorem runOperation_of_sendFail (spec : OpSpec) (cfg : RepoConfig)
    (id : String) (p : Option String) (t : Transport) (g : Nat)
    (creds : Credentials) (g1 : Nat) (c : Err) (reqs : List HttpRequest)
    (h1 : generateCredentials cfg.notary g = (.ok creds, g1))
    (h2 : sendRequest creds spec.functionName cfg.cloudURL spec.method
      spec.kind id p t = (.error c, reqs)) :
    runOperation spec cfg id p t g =
      { result := .error
          (wrapUnexpected spec cfg.notary.account cfg.cloudURL id p c)
        requests := reqs
        log := if cfg.debug then
          [(wrapUnexpected spec cfg.notary.account cfg.cloudURL id p c).render]
          else []
        gen := g1 } := by
  unfold runOperation
  rw [h1]
  dsimp only
  rw [h2]

/-- When credential generation and sendRequest both succeed, the facade
operation returns the outcome when the source returns it and undefined
otherwise, and logs nothing. -/
theorem runOperation_of_ok (spec : OpSpec) (cfg : RepoConfig)
    (id : String) (p : Option String) (t : Transport) (g : Nat)
    (creds : Credentials) (g1 : Nat) (v : JsValue) (reqs : List HttpRequest)
    (h1 : generateCredentials cfg.notary g = (.ok creds, g1))
    (h2 : sendRequest creds spec.functionName cfg.cloudURL spec.method
      spec.kind id p t = (.ok v, reqs)) :
    runOperation spec cfg id p t g =
      { result := .ok (if spec.returnsResult then v else .undefined)
        requests := reqs
        log := []
        gen := g1 } := by
  unfold runOperation
  rw [h1]
  dsimp only
  rw [h2]

/-- Reading back the parameter just set yields the new value. -/
theorem getParam_setParam_self (ps : List (String × Value)) (key : String)
    (v : Value) : getParam (setParam ps key v) key = some v := by
  induction ps with
  | nil => simp [setParam, getParam]
  | cons hd tl ih =>
      by_cases h : hd.1 = key
      · simp [setParam, getParam, h]
      · simp [setParam, getParam, h, ih]

/-- Setting one parameter leaves every other parameter unchanged. -/
theorem getParam_setParam_of_ne (ps : List (String × Value))
    (key other : String) (v : Value) (h : key ≠ other) :
    getParam (setParam ps key v) other = getParam ps other := by
  induction ps with
  | nil => simp [setParam, getParam, h]
  | cons hd tl ih =>
      by_cases h1 : hd.1 = key
      · simp [setParam, getParam, h1, h]
      · simp [setParam, getParam, h1, ih]

/-- Every axios call performed by sendRequest uses the method it was
given. -/
theorem sendRequest_requests_method (credentials : Credentials)
    (fn url : String) (method : Method) (tp id : String)
    (doc : Option String) (t : Transport) :
    ((sendRequest credentials fn url method tp id doc t).2).all
      (fun r => r.method == method) = true := by
  cases h : validate fn url method tp with
  | some e =>
      rw [sendRequest_of_invalid _ _ _ _ _ _ _ _ _ h]
      rfl
  | none =>
      rw [sendRequest_of_valid _ _ _ _ _ _ _ _ h]
      simp [buildRequest]

/-- Every axios call performed by a facade operation uses the method fixed
by its operation data. -/
theorem runOperation_requests_method (spec : OpSpec) (cfg : RepoConfig)
    (id : String) (p : Option String) (t : Transport) (g : Nat) :
    ((runOperation spec cfg id p t g).requests).all
      (fun r => r.method == spec.method) = true := by
  rcases hg : generateCredentials cfg.notary g with ⟨res, g1⟩
  cases res with
  | error c =>
      rw [runOperation_of_genFail spec cfg id p t g c g1 hg]
      rfl
  | ok creds =>
      rcases hs : sendRequest creds spec.functionName cfg.cloudURL spec.method
        spec.kind id p t with ⟨res2, reqs⟩
      have hall : reqs.all (fun r => r.method == spec.method) = true := by
        have := sendRequest_requests_method creds spec.functionName
          cfg.cloudURL spec.method spec.kind id p t
        rw [hs] at this
        exact this
      cases res2 with
      | error c =>
          rw [runOperation_of_sendFail spec cfg id p t g creds g1 c reqs hg hs]
          exact hall
      | ok v =>
          rw [runOperation_of_ok spec cfg id p t g creds g1 v reqs hg hs]
          exact hall

/-- C7: each facade operation issues its request with exactly the HTTP
method given by the (kind, action) mapping: exists uses HEAD, fetch uses
GET, create uses POST, saveDraft uses PUT, deleteDraft uses DELETE,
queueMessage uses PUT, and dequeueMessage uses GET. -/
theorem facade_method_mapping (cfg : RepoConfig) (id payload : String)
    (t : Transport) (g : Nat) :
    ((certificateExists cfg id t g).requests).all
      (fun r => r.method == Method.HEAD) = true ∧
    ((fetchCertificate cfg id t g).requests).all
      (fun r => r.method == Method.GET) = true ∧
    ((createCertificate cfg id payload t g).requests).all
      (fun r => r.method == Method.POST) = true ∧
    ((draftExists cfg id t g).requests).all
      (fun r => r.method == Method.HEAD) = true ∧
    ((fetchDraft cfg id t g).requests).all
      (fun r => r.method == Method.GET) = true ∧
    ((saveDraft cfg id payload t g).requests).all
      (fun r => r.method == Method.PUT) = true ∧
    ((deleteDraft cfg id t g).requests).all
      (fun r => r.method == Method.DELETE) = true ∧
    ((documentExists cfg id t g).requests).all
      (fun r => r.method == Method.HEAD) = true ∧
    ((fetchDocument cfg id t g).requests).all
      (fun r => r.method == Method.GET) = true ∧
    ((createDocument cfg id payload t g).requests).all
      (fun r => r.method == Method.POST) = true ∧
    ((typeExists cfg id t g).requests).all
      (fun r => r.method == Method.HEAD) = true ∧
    ((fetchType cfg id t g).requests).all
      (fun r => r.method == Method.GET) = true ∧
    ((createType cfg id payload t g).requests).all
      (fun r => r.method == Method.POST) = true ∧
    ((queueMessage cfg id payload t g).requests).all
      (fun r => r.method == Method.PUT) = true ∧
    ((dequeueMessage cfg id t g).requests).all
      (fun r => r.method == Method.GET) = true :=
  ⟨runOperation_requests_method _ _ _ _ _ _,
   runOperation_requests_method _ _ _ _ _ _,
   runOperation_requests_method _ _ _ _ _ _,
   runOperation_requests_method _ _ _ _ _ _,
   runOperation_requests_method _ _ _ _ _ _,
   runOperation_requests_method _ _ _ _ _ _,
   runOperation_requests_method _ _ _ _ _ _,
   runOperation_requests_method _ _ _ _ _ _,
   runOperation_requests_method _ _ _ _ _ _,
   runOperation_requests_method _ _ _ _ _ _,
   runOperation_requests_method _ _ _ _ _ _,
   runOperation_requests_method _ _ _ _ _ _,
   runOperation_requests_method _ _ _ _ _ _,
   runOperation_requests_method _ _ _ _ _ _,
   runOperation_requests_method _ _ _ _ _ _⟩

/-- C8: the returned outcome, the raised exception, the requests issued
and the final generator state of a facade operation are identical whether
the debug flag is true or false; the debug flag only controls whether the
wrapped exception is emitted to the error console before being raised. -/
theorem debug_flag_inert (spec : OpSpec) (notary : Notary) (url id : String)
    (p : Option String) (t : Transport) (g : Nat) (d1 d2 : Bool) :
    (runOperation spec ⟨notary, url, d1⟩ id p t g).result =
      (runOperation spec ⟨notary, url, d2⟩ id p t g).result ∧
    (runOperation spec ⟨notary, url, d1⟩ id p t g).requests =
      (runOperation spec ⟨notary, url, d2⟩ id p t g).requests ∧
    (runOperation spec ⟨notary, url, d1⟩ id p t g).gen =
      (runOperation spec ⟨notary, url, d2⟩ id p t g).gen ∧
    (runOperation spec ⟨notary, url, false⟩ id p t g).log = [] ∧
    (runOperation spec ⟨notary, url, true⟩ id p t g).log =
      (match (runOperation spec ⟨notary, url, true⟩ id p t g).result with
       | Except.error e => [Err.render e]
       | Except.ok _ => []) := by
  rcases hg : generateCredentials notary g with ⟨res, g1⟩
  cases res with
  | error c =>
      rw [runOperation_of_genFail spec ⟨notary, url, d1⟩ id p t g c g1 hg,
          runOperation_of_genFail spec ⟨notary, url, d2⟩ id p t g c g1 hg,
          runOperation_of_genFail spec ⟨notary, url, false⟩ id p t g c g1 hg,
          runOperation_of_genFail spec ⟨notary, url, true⟩ id p t g c g1 hg]
      simp
  | ok creds =>
      rcases hs : sendRequest creds spec.functionName url spec.method
        spec.kind id p t with ⟨res2, reqs⟩
      cases res2 with
      | error c =>
          rw [runOperation_of_sendFail spec ⟨notary, url, d1⟩ id p t g creds
                g1 c reqs hg hs,
              runOperation_of_sendFail spec ⟨notary, url, d2⟩ id p t g creds
                g1 c reqs hg hs,
              runOperation_of_sendFail spec ⟨notary, url, false⟩ id p t g
                creds g1 c reqs hg hs,
              runOperation_of_sendFail spec ⟨notary, url, true⟩ id p t g
                creds g1 c reqs hg hs]
          simp
      | ok v =>
          rw [runOperation_of_ok spec ⟨notary, url, d1⟩ id p t g creds g1 v
                reqs hg hs,
              runOperation_of_ok spec ⟨notary, url, d2⟩ id p t g creds g1 v
                reqs hg hs,
              runOperation_of_ok spec ⟨notary, url, false⟩ id p t g creds g1
                v reqs hg hs,
              runOperation_of_ok spec ⟨notary, url, true⟩ id p t g creds g1 v
                reqs hg hs]
          simp

/-- An empty payload string is falsy, so the built request is the one
built with no payload at all. -/
theorem buildRequest_empty (credentials : Credentials) (url : String)
    (method : Method) (tp id : String) :
    buildRequest credentials url method tp id (some "") =
      buildRequest credentials url method tp id none := by
  unfold buildRequest
  simp

/-- sendRequest treats an empty payload string exactly like an absent
payload. -/
theorem sendRequest_empty_payload (credentials : Credentials)
    (fn url : String) (method : Method) (tp id : String) (t : Transport) :
    sendRequest credentials fn url method tp id (some "") t =
      sendRequest credentials fn url method tp id none t := by
  cases h : validate fn url method tp with
  | some e =>
      rw [sendRequest_of_invalid _ _ _ _ _ _ _ _ _ h,
          sendRequest_of_invalid _ _ _ _ _ _ _ _ _ h]
  | none =>
      rw [sendRequest_of_valid _ _ _ _ _ _ _ _ h,
          sendRequest_of_valid _ _ _ _ _ _ _ _ h, buildRequest_empty]

/-- C9: when the payload argument is the empty string, the HTTP request is
sent with no body and without Content-Type or Content-Length headers,
exactly as if no payload had been supplied, both at the sendRequest level
and for the requests issued by any facade operation. -/
theorem empty_payload_ignored (credentials : Credentials) (fn url : String)
    (method : Method) (tp id : String) (t : Transport) (spec : OpSpec)
    (cfg : RepoConfig) (g : Nat) :
    sendRequest credentials fn url method tp id (some "") t =
      sendRequest credentials fn url method tp id none t ∧
    (runOperation spec cfg id (some "") t g).requests =
      (runOperation spec cfg id none t g).requests ∧
    ((sendRequest credentials fn url method tp id (some "") t).2).all
      (fun r => r.data == none
        && !(r.headers.any (fun h => h.1 == "Content-Type"
              || h.1 == "Content-Length"))) = true := by
  refine ⟨sendRequest_empty_payload _ _ _ _ _ _ _, ?_, ?_⟩
  · rcases hg : generateCredentials cfg.notary g with ⟨res, g1⟩
    cases res with
    | error c =>
        rw [runOperation_of_genFail spec cfg id (some "") t g c g1 hg,
            runOperation_of_genFail spec cfg id none t g c g1 hg]
    | ok creds =>
        rcases hs : sendRequest creds spec.functionName cfg.cloudURL
          spec.method spec.kind id none t with ⟨res2, reqs⟩
        have hs' : sendRequest creds spec.functionName cfg.cloudURL
            spec.method spec.kind id (some "") t = (res2, reqs) := by
          rw [sendRequest_empty_payload, hs]
        cases res2 with
        | error c =>
            rw [runOperation_of_sendFail spec cfg id (some "") t g creds g1 c
                  reqs hg hs',
                runOperation_of_sendFail spec cfg id none t g creds g1 c reqs
                  hg hs]
        | ok v =>
            rw [runOperation_of_ok spec cfg id (some "") t g creds g1 v reqs
                  hg hs',
                runOperation_of_ok spec cfg id none t g creds g1 v reqs hg hs]
  · rw [sendRequest_empty_payload]
    cases h : validate fn url method tp with
    | some e =>
        rw [sendRequest_of_invalid _ _ _ _ _ _ _ _ _ h]
        rfl
    | none =>
        rw [sendRequest_of_valid _ _ _ _ _ _ _ _ h]
        simp [buildRequest]

/-- C10: every public facade operation passes sendRequest a
(resource kind, HTTP method) pair that is in the allowed table, its
validation always passes, and exactly one axios call is issued, so the
invalidParameter branches of sendRequest are unreachable through the
public interface. -/
theorem facade_validation_unreachable (credentials : Credentials)
    (url id : String) (doc : Option String) (t : Transport) :
    (allOpSpecs.all (fun s => specAllowed s.kind s.method)) = true ∧
    (allOpSpecs.all (fun s =>
      (validate s.functionName url s.method s.kind).isNone)) = true ∧
    (allOpSpecs.all (fun s =>
      (sendRequest credentials s.functionName url s.method s.kind id doc
        t).2.length == 1)) = true :=
  ⟨rfl, rfl, rfl⟩

/-- C2: an HTTP status strictly below 400 or equal to 404 is a
non-exceptional transport result; on such a result HEAD and DELETE
requests return the boolean status-is-not-404 and GET, POST, PUT requests
return the body if present and otherwise undefined, so a 404 never raises
an exception; any other status at or above 400 is a transport failure. -/
theorem sendRequest_status_policy (credentials : Credentials)
    (fn url : String) (method : Method) (tp id : String)
    (doc : Option String) (status : Nat) (stext : String)
    (data : Option String)
    (hv : validate fn url method tp = none) :
    ((status < 400 ∨ status = 404) →
      ((method = .HEAD ∨ method = .DELETE) →
        (sendRequest credentials fn url method tp id doc
            (.response status stext data)).1 =
          .ok (.boolean (status != 404))) ∧
      ((method = .GET ∨ method = .POST ∨ method = .PUT) →
        (sendRequest credentials fn url method tp id doc
            (.response status stext data)).1 =
          .ok (interpretBody data))) ∧
    (¬(status < 400 ∨ status = 404) →
      resKind (sendRequest credentials fn url method tp id doc
        (.response status stext data)).1 = some "$invalidRequest") := by
  rw [sendRequest_of_valid _ _ _ _ _ _ _ _ hv]
  dsimp only [dispatch]
  constructor
  · intro hok
    rw [if_pos hok]
    constructor
    · intro hm
      rcases hm with h | h <;> subst h <;> rfl
    · intro hm
      rcases hm with h | h | h <;> subst h <;> rfl
  · intro hbad
    rw [if_neg hbad]
    rfl

/-- Witness for C2: a HEAD existence check answered with 404 yields the
boolean false rather than an exception. -/
theorem sendRequest_status_policy_app :
    (sendRequest testCreds0 "$certificateExists" "https://repo.test/"
        Method.HEAD "certificate" "C-1" none
        (Transport.response 404 "Not Found" none)).1 =
      Except.ok (JsValue.boolean false) :=
  ((sendRequest_status_policy testCreds0 "$certificateExists"
      "https://repo.test/" Method.HEAD "certificate" "C-1" none 404
      "Not Found" none rfl).1 (Or.inr rfl)).1 (Or.inl rfl)

/-- The exception record produced by sendRequest for the unknown document
type blob, extracted for the closed statements below. -/
def errUnknownKind : Err :=
  match (sendRequest testCreds0 "$bogus" "https://repo.test/" Method.GET
    "blob" "B-1" none Transport.sendFailure).1 with
  | .error e => e
  | .ok _ => Err.lowLevel ""

/-- C3 counterexample: for the unknown kind blob with method GET,
sendRequest throws an invalidParameter record that does not carry the
offending method: it has no method attribute and no attribute value equal
to GET; this refutes the claim that for every unknown kind the exception
carries both the offending kind and the method. -/
theorem unknown_kind_drops_method :
    (sendRequest testCreds0 "$bogus" "https://repo.test/" Method.GET "blob"
        "B-1" none Transport.sendFailure).1 = .error errUnknownKind ∧
    Err.kindOf errUnknownKind = some "$invalidParameter" ∧
    hasField errUnknownKind "$method" = false ∧
    hasFieldVal errUnknownKind "$parameter" "blob" = true ∧
    ((Err.ctxOf errUnknownKind).all (fun p => p.2 != "GET")) = true :=
  ⟨rfl, rfl, rfl, rfl, rfl⟩

/-- C3 (amended): the allowed (kind, method) combinations are exactly the
table certificate HEAD GET POST, draft HEAD GET PUT DELETE, document HEAD
GET POST, type HEAD GET POST, queue PUT GET; outside the table sendRequest
throws an invalidParameter record and issues no HTTP call; for the five
known kinds the record carries the offending kind and method, while for an
unknown kind it carries the offending kind only. -/
theorem validation_table (credentials : Credentials) (fn url : String)
    (method : Method) (tp id : String) (doc : Option String)
    (t : Transport) :
    (specAllowed tp method = true → validate fn url method tp = none) ∧
    (specAllowed tp method = false →
      ∃ e, sendRequest credentials fn url method tp id doc t =
          (.error e, []) ∧
        Err.kindOf e = some "$invalidParameter" ∧
        Err.causeOf e = none ∧
        (isKnownKind tp = true →
          hasFieldVal e "$type" tp = true ∧
          hasFieldVal e "$method" (methodName method) = true) ∧
        (isKnownKind tp = false →
          hasFieldVal e "$parameter" tp = true ∧
          hasField e "$method" = false)) := by
  by_cases h1 : tp = "certificate"
  · subst h1
    cases method with
    | HEAD => exact ⟨fun _ => rfl, fun h => by simp [specAllowed] at h⟩
    | GET => exact ⟨fun _ => rfl, fun h => by simp [specAllowed] at h⟩
    | POST => exact ⟨fun _ => rfl, fun h => by simp [specAllowed] at h⟩
    | PUT =>
        exact ⟨fun h => by simp [specAllowed] at h, fun _ =>
          ⟨_, sendRequest_of_invalid _ _ _ _ _ _ _ _ _ rfl, rfl, rfl,
           fun _ => ⟨rfl, rfl⟩, fun hk => by simp [isKnownKind] at hk⟩⟩
    | DELETE =>
        exact ⟨fun h => by simp [specAllowed] at h, fun _ =>
          ⟨_, sendRequest_of_invalid _ _ _ _ _ _ _ _ _ rfl, rfl, rfl,
           fun _ => ⟨rfl, rfl⟩, fun hk => by simp [isKnownKind] at hk⟩⟩
  · by_cases h2 : tp = "draft"
    · subst h2
      cases method with
      | HEAD => exact ⟨fun _ => rfl, fun h => by simp [specAllowed] at h⟩
      | GET => exact ⟨fun _ => rfl, fun h => by simp [specAllowed] at h⟩
      | PUT => exact ⟨fun _ => rfl, fun h => by simp [specAllowed] at h⟩
      | DELETE => exact ⟨fun _ => rfl, fun h => by simp [specAllowed] at h⟩
      | POST =>
          exact ⟨fun h => by simp [specAllowed] at h, fun _ =>
            ⟨_, sendRequest_of_invalid _ _ _ _ _ _ _ _ _ rfl, rfl, rfl,
             fun _ => ⟨rfl, rfl⟩, fun hk => by simp [isKnownKind] at hk⟩⟩
    · by_cases h3 : tp = "document"
      · subst h3
        cases method with
        | HEAD => exact ⟨fun _ => rfl, fun h => by simp [specAllowed] at h⟩
        | GET => exact ⟨fun _ => rfl, fun h => by simp [specAllowed] at h⟩
        | POST => exact ⟨fun _ => rfl, fun h => by simp [specAllowed] at h⟩
        | PUT =>
            exact ⟨fun h => by simp [specAllowed] at h, fun _ =>
              ⟨_, sendRequest_of_invalid _ _ _ _ _ _ _ _ _ rfl, rfl, rfl,
               fun _ => ⟨rfl, rfl⟩, fun hk => by simp [isKnownKind] at hk⟩⟩
        | DELETE =>
            exact ⟨fun h => by simp [specAllowed] at h, fun _ =>
              ⟨_, sendRequest_of_invalid _ _ _ _ _ _ _ _ _ rfl, rfl, rfl,
               fun _ => ⟨rfl, rfl⟩, fun hk => by simp [isKnownKind] at hk⟩⟩
      · by_cases h4 : tp = "type"
        · subst h4
          cases method with
          | HEAD => exact ⟨fun _ => rfl, fun h => by simp [specAllowed] at h⟩
          | GET => exact ⟨fun _ => rfl, fun h => by simp [specAllowed] at h⟩
          | POST => exact ⟨fun _ => rfl, fun h => by simp [specAllowed] at h⟩
          | PUT =>
              exact ⟨fun h => by simp [specAllowed] at h, fun _ =>
                ⟨_, sendRequest_of_invalid _ _ _ _ _ _ _ _ _ rfl, rfl, rfl,
                 fun _ => ⟨rfl, rfl⟩, fun hk => by simp [isKnownKind] at hk⟩⟩
          | DELETE =>
              exact ⟨fun h => by simp [specAllowed] at h, fun _ =>
                ⟨_, sendRequest_of_invalid _ _ _ _ _ _ _ _ _ rfl, rfl, rfl,
                 fun _ => ⟨rfl, rfl⟩, fun hk => by simp [isKnownKind] at hk⟩⟩
        · by_cases h5 : tp = "queue"
          · subst h5
            cases method with
            | PUT => exact ⟨fun _ => rfl, fun h => by simp [specAllowed] at h⟩
            | GET => exact ⟨fun _ => rfl, fun h => by simp [specAllowed] at h⟩
            | HEAD =>
                exact ⟨fun h => by simp [specAllowed] at h, fun _ =>
                  ⟨_, sendRequest_of_invalid _ _ _ _ _ _ _ _ _ rfl, rfl, rfl,
                   fun _ => ⟨rfl, rfl⟩,
                   fun hk => by simp [isKnownKind] at hk⟩⟩
            | POST =>
                exact ⟨fun h => by simp [specAllowed] at h, fun _ =>
                  ⟨_, sendRequest_of_invalid _ _ _ _ _ _ _ _ _ rfl, rfl, rfl,
                   fun _ => ⟨rfl, rfl⟩,
                   fun hk => by simp [isKnownKind] at hk⟩⟩
            | DELETE =>
                exact ⟨fun h => by simp [specAllowed] at h, fun _ =>
                  ⟨_, sendRequest_of_invalid _ _ _ _ _ _ _ _ _ rfl, rfl, rfl,
                   fun _ => ⟨rfl, rfl⟩,
                   fun hk => by simp [isKnownKind] at hk⟩⟩
          · have hv : validate fn url method tp =
                some (Err.exc fn "$invalidParameter"
                  [("$parameter", tp),
                   ("$text", "An invalid document type was specified.")]) := by
              unfold validate
              rw [if_neg h1, if_neg h2, if_neg h3, if_neg h4, if_neg h5]
            refine ⟨fun h => ?_, fun _ =>
              ⟨_, sendRequest_of_invalid _ _ _ _ _ _ _ _ _ hv, rfl, rfl,
               fun hk => by simp [isKnownKind, h1, h2, h3, h4, h5] at hk,
               fun _ => ⟨by simp [hasFieldVal, Err.ctxOf], rfl⟩⟩⟩
            exfalso
            simp [specAllowed, h1, h2, h3, h4, h5] at h

/-- Witness for C3: dispatching POST to a queue is outside the table and
fails with invalidParameter, no HTTP call issued. -/
theorem validation_table_app :
    specAllowed "queue" Method.POST = false ∧
    (∃ e, sendRequest testCreds0 "$queueMessage" "https://repo.test/"
          Method.POST "queue" "Q-1" (some "msg") Transport.sendFailure =
        (.error e, []) ∧
      Err.kindOf e = some "$invalidParameter" ∧
      Err.causeOf e = none ∧
      (isKnownKind "queue" = true →
        hasFieldVal e "$type" "queue" = true ∧
        hasFieldVal e "$method" (methodName Method.POST) = true) ∧
      (isKnownKind "queue" = false →
        hasFieldVal e "$parameter" "queue" = true ∧
        hasField e "$method" = false)) :=
  ⟨rfl, (validation_table testCreds0 "$queueMessage" "https://repo.test/"
    Method.POST "queue" "Q-1" (some "msg") Transport.sendFailure).2 rfl⟩

/-- The exception record produced by sendRequest for a 500 response,
extracted for the closed statements below. -/
def errStatus500 : Err :=
  match (sendRequest testCreds0 "$fetchDocument" "https://repo.test/"
    Method.GET "document" "D-1" none
    (Transport.response 500 "Server Error" none)).1 with
  | .error e => e
  | .ok _ => Err.lowLevel ""

/-- C4 counterexample: the invalidRequest record produced for a 500
response carries no cause at all: the original low-level error is not
chained, refuting the claim that each of the three classification
exceptions wraps the original error as its cause. -/
theorem transport_cause_not_chained :
    (sendRequest testCreds0 "$fetchDocument" "https://repo.test/"
        Method.GET "document" "D-1" none
        (Transport.response 500 "Server Error" none)).1 =
      .error errStatus500 ∧
    Err.kindOf errStatus500 = some "$invalidRequest" ∧
    Err.causeOf errStatus500 = none :=
  ⟨rfl, rfl, rfl⟩

/-- C4 (amended): every transport failure is classified into exactly one
of three kinds: invalidRequest when a response arrived with a status at or
above 400 other than 404, serverDown when the request was sent but no
response arrived, and malformedRequest when the request could not be
built or sent; the invalidRequest record carries the status and the url;
none of the three records chains the original low-level error as its
cause. -/
theorem transport_error_taxonomy (credentials : Credentials)
    (fn url : String) (method : Method) (tp id : String)
    (doc : Option String) (status : Nat) (stext : String)
    (data : Option String)
    (hv : validate fn url method tp = none) :
    (¬(status < 400 ∨ status = 404) →
      resKind (sendRequest credentials fn url method tp id doc
        (.response status stext data)).1 = some "$invalidRequest" ∧
      resCause (sendRequest credentials fn url method tp id doc
        (.response status stext data)).1 = some none ∧
      resHasFieldVal (sendRequest credentials fn url method tp id doc
        (.response status stext data)).1 "$status" (toString status) =
        true ∧
      resHasFieldVal (sendRequest credentials fn url method tp id doc
        (.response status stext data)).1 "$url"
        (url ++ tp ++ "/" ++ id) = true) ∧
    (resKind (sendRequest credentials fn url method tp id doc
        (.noResponse status stext)).1 = some "$serverDown" ∧
      resCause (sendRequest credentials fn url method tp id doc
        (.noResponse status stext)).1 = some none) ∧
    (resKind (sendRequest credentials fn url method tp id doc
        Transport.sendFailure).1 = some "$malformedRequest" ∧
      resCause (sendRequest credentials fn url method tp id doc
        Transport.sendFailure).1 = some none) := by
  rw [sendRequest_of_valid credentials fn url method tp id doc
        (.response status stext data) hv,
      sendRequest_of_valid credentials fn url method tp id doc
        (.noResponse status stext) hv,
      sendRequest_of_valid credentials fn url method tp id doc
        Transport.sendFailure hv]
  dsimp only [dispatch]
  refine ⟨fun hbad => ?_, ⟨rfl, rfl⟩, ⟨rfl, rfl⟩⟩
  rw [if_neg hbad]
  refine ⟨rfl, rfl, ?_, ?_⟩
  · simp [resHasFieldVal, hasFieldVal, Err.ctxOf]
  · simp [resHasFieldVal, hasFieldVal, Err.ctxOf, buildRequest]

/-- Witness for C4: a 503 response is classified as invalidRequest with
status and url attributes and no chained cause. -/
theorem transport_error_taxonomy_app :
    resKind (sendRequest testCreds0 "$fetchType" "https://repo.test/"
      Method.GET "type" "T-1" none
      (Transport.response 503 "Unavailable" none)).1 =
      some "$invalidRequest" ∧
    resCause (sendRequest testCreds0 "$fetchType" "https://repo.test/"
      Method.GET "type" "T-1" none
      (Transport.response 503 "Unavailable" none)).1 = some none ∧
    resHasFieldVal (sendRequest testCreds0 "$fetchType" "https://repo.test/"
      Method.GET "type" "T-1" none
      (Transport.response 503 "Unavailable" none)).1 "$status"
      (toString 503) = true ∧
    resHasFieldVal (sendRequest testCreds0 "$fetchType" "https://repo.test/"
      Method.GET "type" "T-1" none
      (Transport.response 503 "Unavailable" none)).1 "$url"
      ("https://repo.test/" ++ "type" ++ "/" ++ "T-1") = true :=
  (transport_error_taxonomy testCreds0 "$fetchType" "https://repo.test/"
    Method.GET "type" "T-1" none 503 "Unavailable" none rfl).1 (by decide)

/-- C5: credential generation obtains the current citation, duplicates it,
overwrites its parameters with a freshly drawn tag, a freshly drawn
version token, permission Private and predecessor none, and has the
notary sign the resulting document; two consecutive generations never
produce identical tag or version identities, so the minted credentials
are never identical. -/
theorem generateCredentials_fresh (notary : Notary) (g g1 g2 : Nat)
    (cit : Document) (c1 c2 : Credentials)
    (hcit : notary.getCitation = .ok cit)
    (h1 : generateCredentials notary g = (.ok c1, g1))
    (h2 : generateCredentials notary g1 = (.ok c2, g2)) :
    c1.document.content = cit.content ∧
    getParam c1.document.params "$permissions" =
      some (Value.str "$Private") ∧
    getParam c1.document.params "$previous" = some (Value.str "none") ∧
    notary.sign c1.document = .ok c1.signature ∧
    getParam c1.document.params "$tag" = some (Value.tok g) ∧
    getParam c1.document.params "$version" = some (Value.tok (g + 1)) ∧
    getParam c1.document.params "$tag" ≠
      getParam c2.document.params "$tag" ∧
    getParam c1.document.params "$version" ≠
      getParam c2.document.params "$version" ∧
    c1 ≠ c2 := by
  unfold generateCredentials at h1 h2
  rw [hcit] at h1 h2
  dsimp only [freshTag, freshVersion] at h1 h2
  split at h1
  · simp at h1
  · rename_i sig1 heq1
    simp only [Prod.mk.injEq, Except.ok.injEq] at h1
    obtain ⟨hc1, hg1⟩ := h1
    subst hc1
    subst hg1
    split at h2
    · simp at h2
    · rename_i sig2 heq2
      simp only [Prod.mk.injEq, Except.ok.injEq] at h2
      obtain ⟨hc2, hg2⟩ := h2
      subst hc2
      subst hg2
      have htag1 : getParam
          (setParam
            (setParam
              (setParam (setParam cit.params "$tag" (Value.tok g))
                "$version" (Value.tok (g + 1)))
              "$permissions" (Value.str "$Private"))
            "$previous" (Value.str "none")) "$tag" =
          some (Value.tok g) := by
        rw [getParam_setParam_of_ne _ _ _ _ (by decide),
            getParam_setParam_of_ne _ _ _ _ (by decide),
            getParam_setParam_of_ne _ _ _ _ (by decide),
            getParam_setParam_self]
      have htag2 : getParam
          (setParam
            (setParam
              (setParam (setParam cit.params "$tag" (Value.tok (g + 2)))
                "$version" (Value.tok (g + 2 + 1)))
              "$permissions" (Value.str "$Private"))
            "$previous" (Value.str "none")) "$tag" =
          some (Value.tok (g + 2)) := by
        rw [getParam_setParam_of_ne _ _ _ _ (by decide),
            getParam_setParam_of_ne _ _ _ _ (by decide),
            getParam_setParam_of_ne _ _ _ _ (by decide),
            getParam_setParam_self]
      have hver1 : getParam
          (setParam
            (setParam
              (setParam (setParam cit.params "$tag" (Value.tok g))
                "$version" (Value.tok (g + 1)))
              "$permissions" (Value.str "$Private"))
            "$previous" (Value.str "none")) "$version" =
          some (Value.tok (g + 1)) := by
        rw [getParam_setParam_of_ne _ _ _ _ (by decide),
            getParam_setParam_of_ne _ _ _ _ (by decide),
            getParam_setParam_self]
      have hver2 : getParam
          (setParam
            (setParam
              (setParam (setParam cit.params "$tag" (Value.tok (g + 2)))
                "$version" (Value.tok (g + 2 + 1)))
              "$permissions" (Value.str "$Private"))
            "$previous" (Value.str "none")) "$version" =
          some (Value.tok (g + 2 + 1)) := by
        rw [getParam_setParam_of_ne _ _ _ _ (by decide),
            getParam_setParam_of_ne _ _ _ _ (by decide),
            getParam_setParam_self]
      refine ⟨rfl, ?_, ?_, ?_, htag1, hver1, ?_, ?_, ?_⟩
      · rw [getParam_setParam_of_ne _ _ _ _ (by decide),
            getParam_setParam_self]
      · rw [getParam_setParam_self]
      · exact heq1
      · rw [htag1, htag2]
        intro h
        simp only [Option.some.injEq, Value.tok.injEq] at h
        omega
      · rw [hver1, hver2]
        intro h
        simp only [Option.some.injEq, Value.tok.injEq] at h
        omega
      · intro h
        have := congrArg
          (fun c => getParam c.document.params "$tag") h
        dsimp only at this
        rw [htag1, htag2] at this
        simp only [Option.some.injEq, Value.tok.injEq] at this
        omega

/-- The credentials minted by the test notary from counter state two, used
by the closed statements below. -/
def credsB : Credentials :=
  match (generateCredentials testNotary 2).1 with
  | .ok c => c
  | .error _ => { document := { content := "", params := [] }, signature := "" }

/-- Witness for C5: two consecutive generations from the test notary mint
credentials whose tag and version identities differ. -/
theorem generateCredentials_fresh_app :
    testNotary.getCitation = .ok testCitation ∧
    generateCredentials testNotary 0 = (.ok testCreds0, 2) ∧
    generateCredentials testNotary 2 = (.ok credsB, 4) ∧
    (testCreds0.document.content = testCitation.content ∧
     getParam testCreds0.document.params "$permissions" =
       some (Value.str "$Private") ∧
     getParam testCreds0.document.params "$previous" =
       some (Value.str "none") ∧
     testNotary.sign testCreds0.document = .ok testCreds0.signature ∧
     getParam testCreds0.document.params "$tag" = some (Value.tok 0) ∧
     getParam testCreds0.document.params "$version" =
       some (Value.tok (0 + 1)) ∧
     getParam testCreds0.document.params "$tag" ≠
       getParam credsB.document.params "$tag" ∧
     getParam testCreds0.document.params "$version" ≠
       getParam credsB.document.params "$version" ∧
     testCreds0 ≠ credsB) :=
  ⟨rfl, rfl, rfl,
   generateCredentials_fresh testNotary 0 2 4 testCitation testCreds0 credsB
     rfl rfl rfl⟩

/-- The properties claimed of one built request: the method given, the
target address base + kind + slash + identifier, the quoted canonically
formatted credentials as the Nebula-Credentials header, and, when a truthy
payload is present, the payload as the body together with the Content-Type
marker and a Content-Length equal to the payload length. -/
def GoodRequest (credentials : Credentials) (url : String) (method : Method)
    (tp id : String) (doc : Option String) (r : HttpRequest) : Prop :=
  r.method = method ∧
  r.url = url ++ tp ++ "/" ++ id ∧
  ("Nebula-Credentials", "\"" ++ formatCredentials credentials ++ "\"")
    ∈ r.headers ∧
  (match doc with
   | some d =>
       if d = "" then r.data = none
       else r.data = some d ∧
         ("Content-Type", "application/bali") ∈ r.headers ∧
         ("Content-Length", toString d.length) ∈ r.headers
   | none => r.data = none)

/-- C6: when validation passes, sendRequest issues exactly one request,
whose target URL is the base address concatenated with the kind, a slash
and the identifier, whose Nebula-Credentials header is the canonically
formatted credential wrapped in double quotes, and whose body, when a
payload is present, is the payload accompanied by Content-Type and an
explicit Content-Length equal to its length. -/
theorem request_construction (credentials : Credentials) (fn url : String)
    (method : Method) (tp id : String) (doc : Option String) (t : Transport)
    (hv : validate fn url method tp = none) :
    (sendRequest credentials fn url method tp id doc t).2 =
      [buildRequest credentials url method tp id doc] ∧
    GoodRequest credentials url method tp id doc
      (buildRequest credentials url method tp id doc) := by
  rw [sendRequest_of_valid _ _ _ _ _ _ _ _ hv]
  refine ⟨rfl, rfl, rfl, ?_, ?_⟩
  · simp [buildRequest]
  · cases doc with
    | none => rfl
    | some d =>
        by_cases hd : d = ""
        · subst hd
          simp [buildRequest]
        · simp only [hd, if_false, reduceIte]
          refine ⟨?_, ?_, ?_⟩
          · simp [buildRequest, hd]
          · simp [buildRequest, hd]
          · simp [buildRequest, hd]

/-- Witness for C6: the request built for createDocument with a payload
has the claimed URL, header and body shape. -/
theorem request_construction_app :
    validate "$createDocument" "https://repo.test/" Method.POST "document"
      = none ∧
    ((sendRequest testCreds0 "$createDocument" "https://repo.test/"
        Method.POST "document" "D-7" (some "[$foo:1]")
        Transport.sendFailure).2 =
      [buildRequest testCreds0 "https://repo.test/" Method.POST "document"
        "D-7" (some "[$foo:1]")] ∧
      GoodRequest testCreds0 "https://repo.test/" Method.POST "document"
        "D-7" (some "[$foo:1]")
        (buildRequest testCreds0 "https://repo.test/" Method.POST "document"
          "D-7" (some "[$foo:1]"))) :=
  ⟨rfl, request_construction testCreds0 "$createDocument"
    "https://repo.test/" Method.POST "document" "D-7" (some "[$foo:1]")
    Transport.sendFailure rfl⟩

/-- The failure of the facade pipeline at the given inputs: the credential
generation error when that step failed, otherwise the sendRequest error;
false when the pipeline succeeded. -/
def UnderlyingFailure (spec : OpSpec) (cfg : RepoConfig) (id : String)
    (p : Option String) (t : Transport) (g : Nat) (c : Option Err) : Prop :=
  match generateCredentials cfg.notary g with
  | (.error cause, _) => c = some cause
  | (.ok creds, _) =>
      match (sendRequest creds spec.functionName cfg.cloudURL spec.method
        spec.kind id p t).1 with
      | .error cause => c = some cause
      | .ok _ => False

/-- The successful facade outcome dictated by the pipeline at the given
inputs: the sendRequest outcome for the value-returning operations,
undefined for the create, save, delete and enqueue operations; false when
any step failed. -/
def FacadeSuccess (spec : OpSpec) (cfg : RepoConfig) (id : String)
    (p : Option String) (t : Transport) (g : Nat) (v : JsValue) : Prop :=
  match generateCredentials cfg.notary g with
  | (.error _, _) => False
  | (.ok creds, _) =>
      match (sendRequest creds spec.functionName cfg.cloudURL spec.method
        spec.kind id p t).1 with
      | .error _ => False
      | .ok outcome => v = if spec.returnsResult then outcome else .undefined

/-- C1 counterexample: a successful deleteDraft returns undefined even
though the interpreted outcome of its DELETE request is the boolean true;
the facade does not return the interpreted outcome unchanged for the
create, save, delete and enqueue operations, refuting the success clause
of the claim. -/
theorem facade_discards_outcome :
    (deleteDraft testCfg "D-1" (Transport.response 200 "OK" none) 0).result =
      .ok JsValue.undefined ∧
    (sendRequest testCreds0 "$deleteDraft" "https://repo.test/"
        Method.DELETE "draft" "D-1" none
        (Transport.response 200 "OK" none)).1 =
      .ok (JsValue.boolean true) ∧
    JsValue.undefined ≠ JsValue.boolean true :=
  ⟨rfl, rfl, by decide⟩

/-- C1 (amended): every facade operation re-raises any failure of
credential generation, validation or dispatch as a single unexpected
record carrying the operation name, the account, the url, the identifier
and, for payload-taking operations, the payload, with the original error
attached as its cause; on success the value-returning operations return
the interpreted outcome unchanged while the create, save, delete and
enqueue operations return undefined. -/
theorem facade_unexpected_wrap (spec : OpSpec) (cfg : RepoConfig)
    (id : String) (p : Option String) (t : Transport) (g : Nat)
    (_hspec : spec ∈ allOpSpecs) :
    (∀ e, (runOperation spec cfg id p t g).result = .error e →
      Err.kindOf e = some "$unexpected" ∧
      Err.fnOf e = some spec.functionName ∧
      hasField e "$account" = true ∧
      hasField e "$url" = true ∧
      hasField e spec.idField = true ∧
      (match spec.payloadField with
       | some f => hasField e f = true
       | none => True) ∧
      UnderlyingFailure spec cfg id p t g (Err.causeOf e)) ∧
    (∀ v, (runOperation spec cfg id p t g).result = .ok v →
      FacadeSuccess spec cfg id p t g v) := by
  have hwrap : ∀ c : Err,
      Err.kindOf (wrapUnexpected spec cfg.notary.account cfg.cloudURL id p c)
        = some "$unexpected" ∧
      Err.fnOf (wrapUnexpected spec cfg.notary.account cfg.cloudURL id p c)
        = some spec.functionName ∧
      hasField (wrapUnexpected spec cfg.notary.account cfg.cloudURL id p c)
        "$account" = true ∧
      hasField (wrapUnexpected spec cfg.notary.account cfg.cloudURL id p c)
        "$url" = true ∧
      hasField (wrapUnexpected spec cfg.notary.account cfg.cloudURL id p c)
        spec.idField = true ∧
      (match spec.payloadField with
       | some f => hasField
           (wrapUnexpected spec cfg.notary.account cfg.cloudURL id p c) f
           = true
       | none => True) ∧
      Err.causeOf (wrapUnexpected spec cfg.notary.account cfg.cloudURL id p c)
        = some c := by
    intro c
    refine ⟨rfl, rfl, rfl, rfl, ?_, ?_, rfl⟩
    · simp [wrapUnexpected, hasField, Err.ctxOf]
    · cases hp : spec.payloadField with
      | none => trivial
      | some f => simp [wrapUnexpected, hasField, Err.ctxOf, hp]
  rcases hg : generateCredentials cfg.notary g with ⟨res, g1⟩
  cases res with
  | error c =>
      rw [runOperation_of_genFail spec cfg id p t g c g1 hg]
      constructor
      · intro e he
        simp only [Except.error.injEq] at he
        subst he
        obtain ⟨w1, w2, w3, w4, w5, w6, w7⟩ := hwrap c
        refine ⟨w1, w2, w3, w4, w5, w6, ?_⟩
        rw [w7]
        unfold UnderlyingFailure
        rw [hg]
      · intro v hv
        simp at hv
  | ok creds =>
      rcases hs : sendRequest creds spec.functionName cfg.cloudURL spec.method
        spec.kind id p t with ⟨res2, reqs⟩
      cases res2 with
      | error c =>
          rw [runOperation_of_sendFail spec cfg id p t g creds g1 c reqs hg hs]
          constructor
          · intro e he
            simp only [Except.error.injEq] at he
            subst he
            obtain ⟨w1, w2, w3, w4, w5, w6, w7⟩ := hwrap c
            refine ⟨w1, w2, w3, w4, w5, w6, ?_⟩
            rw [w7]
            unfold UnderlyingFailure
            rw [hg]
            dsimp only
            have : (sendRequest creds spec.functionName cfg.cloudURL
                spec.method spec.kind id p t).1 = .error c := by
              rw [hs]
            rw [this]
          · intro v hv
            simp at hv
      | ok v0 =>
          rw [runOperation_of_ok spec cfg id p t g creds g1 v0 reqs hg hs]
          constructor
          · intro e he
            simp at he
          · intro v hv
            simp only [Except.ok.injEq] at hv
            subst hv
            unfold FacadeSuccess
            rw [hg]
            dsimp only
            have : (sendRequest creds spec.functionName cfg.cloudURL
                spec.method spec.kind id p t).1 = .ok v0 := by
              rw [hs]
            rw [this]

/-- The unexpected record raised by certificateExists when the transport
cannot send, extracted for the closed statements below. -/
def errW : Err :=
  match (runOperation certificateExistsSpec testCfg "C-2" none
    Transport.sendFailure 0).result with
  | .error e => e
  | .ok _ => Err.lowLevel ""

/-- Witness for C1: a certificateExists call whose request could not be
sent raises a single unexpected record with the claimed attributes and the
classified transport error as its cause. -/
theorem facade_unexpected_wrap_app :
    certificateExistsSpec ∈ allOpSpecs ∧
    (runOperation certificateExistsSpec testCfg "C-2" none
      Transport.sendFailure 0).result = .error errW ∧
    (Err.kindOf errW = some "$unexpected" ∧
     Err.fnOf errW = some certificateExistsSpec.functionName ∧
     hasField errW "$account" = true ∧
     hasField errW "$url" = true ∧
     hasField errW certificateExistsSpec.idField = true ∧
     (match certificateExistsSpec.payloadField with
      | some f => hasField errW f = true
      | none => True) ∧
     UnderlyingFailure certificateExistsSpec testCfg "C-2" none
       Transport.sendFailure 0 (Err.causeOf errW)) :=
  ⟨by unfold allOpSpecs; exact List.mem_cons_self _ _, rfl,
   (facade_unexpected_wrap certificateExistsSpec testCfg "C-2" none
     Transport.sendFailure 0
     (by unfold allOpSpecs; exact List.mem_cons_self _ _)).1 errW rfl⟩

end CloudRepository
